import Mathlib

/-!
Shallow embedding of the `dbg_breakpoint` crate's detection backends and
trap wrappers (src/dbg.rs, src/lib/dbg_win_seh.rs), together with proofs of
the specified properties.

Strings from the Rust side are modelled as `List Char`, so that every
operation is structural and evaluable by the kernel.  Externally owned OS
state (the TEB flag, the sysctl record, the /proc/self/status contents) is
passed to each function explicitly, since the Rust code reads it afresh on
every call and owns none of it.
-/

deriving instance DecidableEq for Except

/-- Presence of a debugger (src/dbg.rs `enum DebuggerPresence`). -/
inductive DebuggerPresence
  | Detected
  | NotDetected
deriving DecidableEq, Repr

/-- Error detecting debugger presence (src/dbg.rs `enum DebuggerPresenceError`).
In the Rust source each variant is compiled only on the platforms that can
produce it; here the enum carries both variants unconditionally. -/
inductive DebuggerPresenceError
  | NotImplemented
  | DetectionFailed
deriving DecidableEq, Repr

/-- Rust `str::split(sep)` over a char list: splits at every occurrence of
`sep`, keeping empty segments, and yields `[""]` on the empty string. -/
def splitOnChar (sep : Char) : List Char → List (List Char)
  | [] => [[]]
  | c :: cs =>
    if c == sep then
      [] :: splitOnChar sep cs
    else
      match splitOnChar sep cs with
      | [] => [[c]]
      | r :: rs => (c :: r) :: rs

/-- Rust `char::is_whitespace` (the Unicode White_Space property), the
predicate `str::trim` strips by. -/
def isRustWhitespace (c : Char) : Bool :=
  c == '\t' || c == '\n' || c == '\x0b' || c == '\x0c' || c == '\r' ||
  c == ' ' || c == '\u0085' || c == '\u00a0' || c == '\u1680' ||
  c == '\u2000' || c == '\u2001' || c == '\u2002' || c == '\u2003' ||
  c == '\u2004' || c == '\u2005' || c == '\u2006' || c == '\u2007' ||
  c == '\u2008' || c == '\u2009' || c == '\u200a' || c == '\u2028' ||
  c == '\u2029' || c == '\u202f' || c == '\u205f' || c == '\u3000'

/-- Rust `str::trim`: drop leading and trailing whitespace. -/
def rustTrim (s : List Char) : List Char :=
  ((s.dropWhile isRustWhitespace).reverse.dropWhile isRustWhitespace).reverse

/-- Rust `BufRead::lines` applied to the full text of a file read without
I/O errors: split the text at every newline, dropping a final newline (so
the empty text has no lines) and a trailing carriage return on each line. -/
def rustLines (s : List Char) : List (List Char) :=
  match s with
  | [] => []
  | _ =>
    ((if s.getLast? == some '\n' then s.dropLast else s) |> splitOnChar '\n').map
      (fun l => if l.getLast? == some '\r' then l.dropLast else l)

/-- The field key scanned for in /proc/self/status (src/dbg.rs:140). -/
def tracerPidKey : List Char := "TracerPid:".data

/-- The scan loop of the linux `os::is_debugger_present`
(src/dbg.rs:139-153): walk the successfully read lines; at the first line
starting with "TracerPid:", return `Detected` when the text after the
first colon trims to something other than the literal "0" (absence of
such text counts as `NotDetected`, via Rust `map_or(false, ..)`), else
`NotDetected`; if no line matches, `DetectionFailed`. -/
def scanStatusLines : List (List Char) → Except DebuggerPresenceError DebuggerPresence
  | [] => .error .DetectionFailed
  | line :: rest =>
    if tracerPidKey.isPrefixOf line then
      if (((splitOnChar ':' line)[1]?).map
          (fun pid => rustTrim pid != "0".data)).getD false then
        .ok .Detected
      else
        .ok .NotDetected
    else
      scanStatusLines rest

/-- The linux `os::is_debugger_present` (src/dbg.rs:134-154).  The
externally owned state is passed explicitly: `none` models
`File::open("/proc/self/status")` failing (mapped to `NotImplemented`);
otherwise the list holds the `io::Result<String>` values produced by
`reader.lines()`, with `none` a failed line read, which `.flatten()`
silently skips. -/
def linux_is_debugger_present (file : Option (List (Option (List Char)))) :
    Except DebuggerPresenceError DebuggerPresence :=
  match file with
  | none => .error .NotImplemented
  | some lineReads => scanStatusLines (lineReads.filterMap id)

/-- The windows `os::is_debugger_present` (src/dbg.rs:34-43), as a function
of the i32 returned by the `IsDebuggerPresent` TEB accessor. -/
def windows_is_debugger_present (isDebuggerPresentRet : Int) :
    Except DebuggerPresenceError DebuggerPresence :=
  if isDebuggerPresentRet ≠ 0 then
    .ok DebuggerPresence.Detected
  else
    .ok DebuggerPresence.NotDetected

/-- The two BSD-family platforms of src/dbg.rs (macos and freebsd), each of
which compiles its own `traced` module. -/
inductive BsdPlatform
  | macos
  | freebsd
deriving DecidableEq, Repr

/-- The per-platform `P_TRACED` constant (src/dbg.rs:54 and src/dbg.rs:77). -/
def P_TRACED : BsdPlatform → Nat
  | .macos => 0x00000800
  | .freebsd => 0x00000002

/-- The flags field of the kernel process-info record (`p_flag` on macos,
`ki_flag` on freebsd), an i32 modelled as its bit pattern (a Nat below
2^32); the other fields of the record are never inspected. -/
structure KinfoProc where
  flag : Nat
deriving DecidableEq, Repr

/-- `KinfoProc::is_traced` (src/dbg.rs:68-72 on macos, src/dbg.rs:91-94 on
freebsd): test the platform's `P_TRACED` bit of the flags field. -/
def KinfoProc.is_traced (p : BsdPlatform) (info : KinfoProc) : Bool :=
  (info.flag &&& P_TRACED p) != 0

/-- The macos/freebsd `os::is_debugger_present` (src/dbg.rs:97-123), as a
function of the sysctl outcome: `none` models `sysctl` returning nonzero
(failure), `some info` a successful fill of the record. -/
def bsd_is_debugger_present (p : BsdPlatform) (sysctlRet : Option KinfoProc) :
    Except DebuggerPresenceError DebuggerPresence :=
  match sysctlRet with
  | some info => if KinfoProc.is_traced p info then
      .ok DebuggerPresence.Detected
    else
      .ok DebuggerPresence.NotDetected
  | none => .error DebuggerPresenceError.DetectionFailed

/-- The fallback `os::is_debugger_present` (src/dbg.rs:166-168), compiled on
every platform other than windows, macos, freebsd and linux. -/
def fallback_is_debugger_present (_u : Unit) :
    Except DebuggerPresenceError DebuggerPresence :=
  .error DebuggerPresenceError.NotImplemented

/-- The externally owned OS state one invocation of the detection query
reads, one constructor per build-time platform branch of src/dbg.rs. -/
inductive OsState
  | windows (isDebuggerPresentRet : Int)
  | bsd (p : BsdPlatform) (sysctlRet : Option KinfoProc)
  | linux (file : Option (List (Option (List Char))))
  | other

/-- The crate-level `is_debugger_present` (src/dbg.rs:172-174): delegate to
the single `os` branch selected for the target. -/
def is_debugger_present : OsState → Except DebuggerPresenceError DebuggerPresence
  | .windows r => windows_is_debugger_present r
  | .bsd p s => bsd_is_debugger_present p s
  | .linux f => linux_is_debugger_present f
  | .other => fallback_is_debugger_present ()

/-- `breakpoint_if_debugging` (src/dbg.rs:180-188): run the detection query
and execute the breakpoint instruction exactly on `Ok(Detected)`.  The
returned Bool records whether the trap instruction was executed. -/
def breakpoint_if_debugging (s : OsState) : Bool :=
  match is_debugger_present s with
  | .ok .Detected => true
  | _ => false

/-- `breakpoint_if_debugging_seh` (src/lib/dbg_win_seh.rs:127-134), as a
function of the i32 code the `__dbg_breakpoint` assembly contract leaves in
the return register.  The Rust match maps 0 and -1; any other code panics
with "Internal error", modelled as `Except.error` carrying the message. -/
def breakpoint_if_debugging_seh (code : Int) :
    Except (List Char) (Option DebuggerPresence) :=
  if code = 0 then
    .ok (some DebuggerPresence.NotDetected)
  else if code = -1 then
    .ok (some DebuggerPresence.Detected)
  else
    .error "Internal error".data

/-- Stdout lines written during one invocation of the detection query, per
platform branch: the macos `KinfoProc::is_traced` (src/dbg.rs:69) begins
with a println of the flags field in lowercase hex, executed whenever the
sysctl call succeeds; every other branch writes nothing. -/
def is_debugger_present_output : OsState → List (List Char)
  | .bsd .macos (some info) => [Nat.toDigits 16 info.flag]
  | _ => []

/-- Two consecutive invocations of the detection query against the same
externally owned state; the library holds no state of its own to thread
from the first call into the second. -/
def query_twice (s : OsState) :
    (Except DebuggerPresenceError DebuggerPresence) ×
      (Except DebuggerPresenceError DebuggerPresence) :=
  (is_debugger_present s, is_debugger_present s)

/-! Helper lemmas about the scan loop and the char-level string operations. -/

theorem isPrefixOf_append_self (p s : List Char) : p.isPrefixOf (p ++ s) = true := by
  induction p with
  | nil => simp [List.isPrefixOf]
  | cons c cs ih => simp [List.isPrefixOf, ih]

theorem filterMap_id_map_some (l : List (List Char)) :
    (l.map some).filterMap id = l := by
  induction l with
  | nil => rfl
  | cons x xs ih => simp [ih]

theorem splitOnChar_of_not_mem (sep : Char) (v : List Char) (h : sep ∉ v) :
    splitOnChar sep v = [v] := by
  induction v with
  | nil => rfl
  | cons c cs ih =>
    have hc : (c == sep) = false := by
      simp only [beq_eq_false_iff_ne]
      exact fun e => h (e ▸ List.mem_cons_self c cs)
    have hcs := ih (fun hm => h (List.mem_cons_of_mem c hm))
    simp [splitOnChar, hc, hcs]

theorem splitOnChar_append (sep : Char) (u v : List Char) (hu : sep ∉ u) :
    splitOnChar sep (u ++ sep :: v) = u :: splitOnChar sep v := by
  induction u with
  | nil => simp [splitOnChar]
  | cons c cs ih =>
    have hc : (c == sep) = false := by
      simp only [beq_eq_false_iff_ne]
      exact fun e => hu (e ▸ List.mem_cons_self c cs)
    have hcs := ih (fun hm => hu (List.mem_cons_of_mem c hm))
    simp [splitOnChar, hc, hcs]

theorem scanStatusLines_append_of_no_key (pre rest : List (List Char))
    (h : ∀ l ∈ pre, tracerPidKey.isPrefixOf l = false) :
    scanStatusLines (pre ++ rest) = scanStatusLines rest := by
  induction pre with
  | nil => rfl
  | cons x xs ih =>
    have hx := h x (List.mem_cons_self x xs)
    have hxs := ih fun l hl => h l (List.mem_cons_of_mem x hl)
    simp [scanStatusLines, hx, hxs]

theorem scanStatusLines_cons_of_key (l : List Char) (rest : List (List Char))
    (hl : tracerPidKey.isPrefixOf l = true) :
    scanStatusLines (l :: rest) = scanStatusLines [l] := by
  simp [scanStatusLines, hl]

theorem scanStatusLines_key_line (v : List Char) (rest : List (List Char))
    (hv : ':' ∉ v) :
    scanStatusLines ((tracerPidKey ++ v) :: rest) =
      if rustTrim v = "0".data then
        .ok DebuggerPresence.NotDetected
      else
        .ok DebuggerPresence.Detected := by
  have hk : tracerPidKey = "TracerPid".data ++ [':'] := by decide
  have hsplit : splitOnChar ':' (tracerPidKey ++ v) =
      "TracerPid".data :: splitOnChar ':' v := by
    rw [hk, List.append_assoc, List.singleton_append]
    exact splitOnChar_append ':' "TracerPid".data v (by decide)
  by_cases h0 : rustTrim v = "0".data
  · simp [scanStatusLines, isPrefixOf_append_self, hsplit,
      splitOnChar_of_not_mem ':' v hv, h0]
  · simp [scanStatusLines, isPrefixOf_append_self, hsplit,
      splitOnChar_of_not_mem ':' v hv, h0]
/-! The claims. -/

/-- C1: `breakpoint_if_debugging_seh` maps the assembly contract's tri-state
code so that 0 yields `Some NotDetected`, -1 yields `Some Detected`, and any
other code aborts at once with the internal-error panic instead of being
reinterpreted as a runtime condition. -/
theorem c1_seh_tristate_mapping :
    breakpoint_if_debugging_seh 0 = .ok (some DebuggerPresence.NotDetected) ∧
    breakpoint_if_debugging_seh (-1) = .ok (some DebuggerPresence.Detected) ∧
    (∀ code : Int, code ≠ 0 → code ≠ -1 →
      breakpoint_if_debugging_seh code = .error "Internal error".data) := by
  refine ⟨rfl, rfl, ?_⟩
  intro code h0 h1
  simp [breakpoint_if_debugging_seh, h0, h1]

theorem c1_seh_tristate_mapping_witness :
    breakpoint_if_debugging_seh 5 = .error "Internal error".data :=
  c1_seh_tristate_mapping.2.2 5 (by decide) (by decide)

/-- C2: on the process-status-file platform, a line made of the TracerPid
key followed by a colon-free value trimming to something other than "0"
yields Ok Detected, a value trimming to "0" yields Ok NotDetected (in both
cases regardless of surrounding non-key lines), an input with no TracerPid
line yields Err DetectionFailed, and the concrete texts "TracerPid:\t1234\n"
and "TracerPid:\t0\n" give Detected and NotDetected respectively. -/
theorem c2_status_file_parsing :
    (∀ (pre post : List (List Char)) (v : List Char),
        (∀ l ∈ pre, tracerPidKey.isPrefixOf l = false) → ':' ∉ v →
        rustTrim v ≠ "0".data →
        linux_is_debugger_present
            (some ((pre ++ (tracerPidKey ++ v) :: post).map some)) =
          .ok DebuggerPresence.Detected) ∧
    (∀ (pre post : List (List Char)) (v : List Char),
        (∀ l ∈ pre, tracerPidKey.isPrefixOf l = false) → ':' ∉ v →
        rustTrim v = "0".data →
        linux_is_debugger_present
            (some ((pre ++ (tracerPidKey ++ v) :: post).map some)) =
          .ok DebuggerPresence.NotDetected) ∧
    (∀ ls : List (List Char),
        (∀ l ∈ ls, tracerPidKey.isPrefixOf l = false) →
        linux_is_debugger_present (some (ls.map some)) =
          .error DebuggerPresenceError.DetectionFailed) ∧
    linux_is_debugger_present
        (some ((rustLines "TracerPid:\t1234\n".data).map some)) =
      .ok DebuggerPresence.Detected ∧
    linux_is_debugger_present
        (some ((rustLines "TracerPid:\t0\n".data).map some)) =
      .ok DebuggerPresence.NotDetected := by
  refine ⟨?_, ?_, ?_, by decide, by decide⟩
  · intro pre post v hpre hv h0
    simp only [linux_is_debugger_present, filterMap_id_map_some]
    rw [scanStatusLines_append_of_no_key pre _ hpre, scanStatusLines_key_line v post hv]
    simp [h0]
  · intro pre post v hpre hv h0
    simp only [linux_is_debugger_present, filterMap_id_map_some]
    rw [scanStatusLines_append_of_no_key pre _ hpre, scanStatusLines_key_line v post hv]
    simp [h0]
  · intro ls hls
    simp only [linux_is_debugger_present, filterMap_id_map_some]
    have := scanStatusLines_append_of_no_key ls [] hls
    simpa using this

theorem c2_status_file_parsing_witness :
    linux_is_debugger_present
        (some ((([] : List (List Char)) ++
          (tracerPidKey ++ "\t1234".data) :: []).map some)) =
      .ok DebuggerPresence.Detected :=
  c2_status_file_parsing.1 [] [] "\t1234".data (by simp) (by decide) (by decide)

/-- C3: `breakpoint_if_debugging` executes the breakpoint trap exactly when
the detection query returns Ok Detected; on Ok NotDetected or any Err the
trap is not executed.  The operation is a total function of the externally
owned state (it always completes). -/
theorem c3_conditional_trap :
    ∀ s : OsState,
      breakpoint_if_debugging s = true ↔
        is_debugger_present s = .ok DebuggerPresence.Detected := by
  intro s
  unfold breakpoint_if_debugging
  cases h : is_debugger_present s with
  | ok p => cases p <;> simp
  | error e => simp

/-- C4: the windows detection query returns Ok Detected when the TEB
accessor's i32 result is nonzero, Ok NotDetected when it is zero, and can
never return an error. -/
theorem c4_windows_teb_flag :
    (∀ v : Int, v ≠ 0 → windows_is_debugger_present v =
      .ok DebuggerPresence.Detected) ∧
    windows_is_debugger_present 0 = .ok DebuggerPresence.NotDetected ∧
    (∀ (v : Int) (e : DebuggerPresenceError),
      windows_is_debugger_present v ≠ .error e) := by
  refine ⟨?_, ?_, ?_⟩
  · intro v hv
    simp [windows_is_debugger_present, hv]
  · rfl
  · intro v e h
    unfold windows_is_debugger_present at h
    by_cases hv : v = 0 <;> simp [hv] at h

theorem c4_windows_teb_flag_witness :
    windows_is_debugger_present 1 = .ok DebuggerPresence.Detected :=
  c4_windows_teb_flag.1 1 (by decide)

/-- C5: on macos and freebsd, a failing sysctl call yields
Err DetectionFailed; on success the query returns Ok Detected exactly when
the platform's traced bit (mask 0x00000800 on macos, 0x00000002 on freebsd)
of the record's flags field is nonzero, and Ok NotDetected when it is zero. -/
theorem c5_bsd_kinfo_proc :
    P_TRACED BsdPlatform.macos = 0x00000800 ∧
    P_TRACED BsdPlatform.freebsd = 0x00000002 ∧
    (∀ p, bsd_is_debugger_present p none =
      .error DebuggerPresenceError.DetectionFailed) ∧
    (∀ p info,
      (bsd_is_debugger_present p (some info) = .ok DebuggerPresence.Detected ↔
        info.flag &&& P_TRACED p ≠ 0) ∧
      (bsd_is_debugger_present p (some info) = .ok DebuggerPresence.NotDetected ↔
        info.flag &&& P_TRACED p = 0)) := by
  refine ⟨rfl, rfl, fun p => rfl, ?_⟩
  intro p info
  by_cases h : info.flag &&& P_TRACED p = 0 <;>
    simp [bsd_is_debugger_present, KinfoProc.is_traced, h]

/-- C6: on the process-status-file platform, failure to open the status
pseudo-file maps to the capability-absent error NotImplemented (the spec's
Unsupported), not to DetectionFailed. -/
theorem c6_open_failure_maps_to_unsupported :
    linux_is_debugger_present none =
      .error DebuggerPresenceError.NotImplemented ∧
    linux_is_debugger_present none ≠
      .error DebuggerPresenceError.DetectionFailed := by
  exact ⟨rfl, by decide⟩

/-- C7: on every platform other than the four supported ones the detection
query returns the capability-absent error unconditionally, on every
invocation. -/
theorem c7_fallback_unsupported :
    (∀ u : Unit, fallback_is_debugger_present u =
      .error DebuggerPresenceError.NotImplemented) ∧
    is_debugger_present OsState.other =
      .error DebuggerPresenceError.NotImplemented :=
  ⟨fun _ => rfl, rfl⟩

/-- C8: two consecutive invocations of the detection query against the same
externally owned state return equal results; the query reads that state
afresh each call and retains nothing across calls, so the pair of results
is a function of the state alone. -/
theorem c8_query_idempotent :
    ∀ s : OsState, (query_twice s).1 = (query_twice s).2 :=
  fun _ => rfl

/-- C9: the claim that the query performs no output on any invocation fails
on the code: on macos, whenever the sysctl call succeeds,
`KinfoProc::is_traced` begins by printing the flags field in lowercase hex
(src/dbg.rs:69).  At flag 0x800 the invocation writes the line "800"; every
other platform branch writes nothing. -/
theorem c9_macos_println_output :
    is_debugger_present_output (.bsd .macos (some ⟨0x800⟩)) = ["800".data] ∧
    is_debugger_present_output (.bsd .macos (some ⟨0x800⟩)) ≠ [] ∧
    (∀ r, is_debugger_present_output (.windows r) = []) ∧
    (∀ f, is_debugger_present_output (.linux f) = []) ∧
    (∀ s, is_debugger_present_output (.bsd .freebsd s) = []) ∧
    is_debugger_present_output .other = [] := by
  exact ⟨by decide, by decide, fun _ => rfl, fun _ => rfl,
    fun s => by cases s <;> rfl, rfl⟩

/-- C10: on the process-status-file platform the result is decided by the
first successfully read line starting with the TracerPid key: any lines
after it never influence the result (the scan returns at that line), and a
failed line read is silently skipped without producing an error. -/
theorem c10_first_key_line_decides :
    (∀ (pre : List (Option (List Char))) (l : List Char)
        (post post' : List (Option (List Char))),
        (∀ x ∈ pre.filterMap id, tracerPidKey.isPrefixOf x = false) →
        tracerPidKey.isPrefixOf l = true →
        linux_is_debugger_present (some (pre ++ some l :: post)) =
            linux_is_debugger_present (some (pre ++ some l :: post')) ∧
          linux_is_debugger_present (some (pre ++ some l :: post)) =
            scanStatusLines [l]) ∧
    (∀ pre post : List (Option (List Char)),
        linux_is_debugger_present (some (pre ++ none :: post)) =
          linux_is_debugger_present (some (pre ++ post))) := by
  constructor
  · intro pre l post post' hpre hl
    have key : ∀ q : List (Option (List Char)),
        linux_is_debugger_present (some (pre ++ some l :: q)) =
          scanStatusLines [l] := by
      intro q
      simp only [linux_is_debugger_present, List.filterMap_append,
        List.filterMap_cons, id_eq]
      rw [scanStatusLines_append_of_no_key _ _ hpre,
        scanStatusLines_cons_of_key l _ hl]
    exact ⟨(key post).trans (key post').symm, key post⟩
  · intro pre post
    simp [linux_is_debugger_present, List.filterMap_append, List.filterMap_cons]

theorem c10_first_key_line_decides_witness :
    (linux_is_debugger_present
        (some ([] ++ some "TracerPid: 7".data :: [some "garbage".data])) =
      linux_is_debugger_present
        (some ([] ++ some "TracerPid: 7".data :: [])) ∧
    linux_is_debugger_present
        (some ([] ++ some "TracerPid: 7".data :: [some "garbage".data])) =
      scanStatusLines ["TracerPid: 7".data]) ∧
    linux_is_debugger_present (some ([] ++ none :: [some "TracerPid: 0".data])) =
      linux_is_debugger_present (some ([] ++ [some "TracerPid: 0".data])) :=
  ⟨c10_first_key_line_decides.1 [] "TracerPid: 7".data [some "garbage".data] []
      (by simp) (by decide),
    c10_first_key_line_decides.2 [] [some "TracerPid: 0".data]⟩
